import Mathlib

/-!
# CosmicPanel configuration-and-licensing bootstrap: a shallow embedding

This file embeds, in Lean, the data model and the operations of the
CosmicPanel daemon bootstrap (`config/config.go` and the entrypoint
`cosmicpanel.go`), and proves properties of them.

Modelling conventions:

* Go struct pointers that may be nil become `Option`; `nil` is `none`.
* OS and network interactions (user lookup, `useradd`, file open, HTTP
  exchanges) are modelled by explicit environment records: the environment
  fixes the outcome each external call would have, and the embedded
  functions branch on those outcomes exactly as the Go code branches on
  the returned errors.
* Observable side effects (HTTP requests issued, `exec` invocations, file
  opens and writes) are collected in an explicit `BootAction` trace, and the
  content of the configuration file on disk is threaded as an
  `Option Configuration` value (`none` = no well-formed config written yet;
  `some c` stands for the YAML serialization of `c`, which is injective).
* `log.Fatal` terminates the process (it calls `os.Exit(1)` after logging);
  it is modelled by the `Outcome.fatal` result, which aborts the run.
  Statements after a `log.Fatal` call are dead code and do not appear in
  the embedding of the path that reaches the `log.Fatal`.
* `zap.S().Panicw` / `panic(err)` in the entrypoint, and a nil-pointer
  dereference, are distinguished outcomes of the modelled boot sequence.
-/

/-! ## Data model (`config.go`: Configuration and its sections) -/

/-- License type constant `FULL = 1`. -/
def FULL : Int := 1

/-- License type constant `LITE = 2`. -/
def LITE : Int := 2

/-- License type constant `DNSONLY = 3`. -/
def DNSONLY : Int := 3

/-- License type constant `TRIAL = 4`. -/
def TRIAL : Int := 4

/-- `SystemConfiguration`: data directory, service username, and the nested
`User { Uid, Gid }` record (flattened here to the two numeric fields). -/
structure SystemConfiguration where
  data : String
  username : String
  uid : Int
  gid : Int
deriving DecidableEq, Repr

/-- `PanelConfiguration`: the port the panel uses. -/
structure PanelConfiguration where
  port : Int
deriving DecidableEq, Repr

/-- `LicenseConfiguration`: validity flag and license type. -/
structure LicenseConfiguration where
  validLicense : Bool
  licenseType : Int
deriving DecidableEq, Repr

/-- `Configuration`: the root aggregate.  The three section fields are
pointers in Go (`*SystemConfiguration` etc.), hence `Option` here; a YAML
file that omits a section leaves the pointer nil (`none`). -/
structure Configuration where
  debug : Bool
  system : Option SystemConfiguration
  panel : Option PanelConfiguration
  license : Option LicenseConfiguration
deriving DecidableEq, Repr

/-- The zero-valued `Configuration{}` that `ReadConfiguration` allocates
before unmarshalling. -/
def emptyConfiguration : Configuration :=
  { debug := false, system := none, panel := none, license := none }

/-! ## Observable effects -/

/-- One observable external action of the bootstrap code. -/
inductive BootAction where
  | httpGet (url : String)
  | httpPost (url : String) (licenseType : Int) (ip : String)
  | fsOpen (path : String) (flag : Nat) (perm : Nat)
  | fsWrite (path : String) (content : Configuration)
  | exec (argv : List String)
deriving DecidableEq, Repr

/-- Linux `os.O_WRONLY`. -/
def oWRONLY : Nat := 1

/-- `os.ModeExclusive`, a `FileMode` bit (`1 <<< 29`); it is passed by
`WriteToDisk` as the permission argument of `os.OpenFile`. -/
def modeExclusive : Nat := 536870912

/-! ## ConfigStore: defaults, load (yaml merge), SetLicenseSettings,
WriteToDisk -/

/-- `SetDefaults`: assigns fresh `System` and `Panel` sections wholesale
(Go allocates new structs, so any prior contents of those sections are
replaced; the nested `User` struct is zero-valued). -/
def SetDefaults (c : Configuration) : Configuration :=
  { c with
    system := some { data := "/usr/local/cosmicpanel", username := "cosmicpanel",
                     uid := 0, gid := 0 },
    panel := some { port := 1334 } }

/-- `SetLicenseSettings`: replaces the `License` section with a freshly
allocated one carrying the given values.  In-memory only: it performs no
disk write. -/
def SetLicenseSettings (c : Configuration) (valid : Bool) (licenseType : Int) :
    Configuration :=
  { c with license := some { validLicense := valid, licenseType := licenseType } }

/-- A parsed YAML document for the `system` section: each field is `some`
exactly when the corresponding key is present in the file. -/
structure SystemFile where
  data : Option String
  username : Option String
  uid : Option Int
  gid : Option Int
deriving DecidableEq, Repr

/-- A parsed YAML document for the `panel` section. -/
structure PanelFile where
  port : Option Int
deriving DecidableEq, Repr

/-- A parsed YAML document for the `license` section. -/
structure LicenseFile where
  validLicense : Option Bool
  licenseType : Option Int
deriving DecidableEq, Repr

/-- A configuration file after YAML parsing (and environment-variable
expansion, which only affects the scalar values and is immaterial here):
each field is `some` exactly when the corresponding key is present. -/
structure ConfigFile where
  debug : Option Bool
  system : Option SystemFile
  panel : Option PanelFile
  license : Option LicenseFile
deriving DecidableEq, Repr

/-- `yaml.Unmarshal` merge semantics for the `system` section: if the
destination pointer is nil a zero-valued struct is allocated, then exactly
the keys present in the document are assigned. -/
def applySystem (cur : Option SystemConfiguration) (f : SystemFile) :
    SystemConfiguration :=
  let base := cur.getD { data := "", username := "", uid := 0, gid := 0 }
  { data := f.data.getD base.data
    username := f.username.getD base.username
    uid := f.uid.getD base.uid
    gid := f.gid.getD base.gid }

/-- `yaml.Unmarshal` merge semantics for the `panel` section. -/
def applyPanel (cur : Option PanelConfiguration) (f : PanelFile) :
    PanelConfiguration :=
  let base := cur.getD { port := 0 }
  { port := f.port.getD base.port }

/-- `yaml.Unmarshal` merge semantics for the `license` section. -/
def applyLicense (cur : Option LicenseConfiguration) (f : LicenseFile) :
    LicenseConfiguration :=
  let base := cur.getD { validLicense := false, licenseType := 0 }
  { validLicense := f.validLicense.getD base.validLicense
    licenseType := f.licenseType.getD base.licenseType }

/-- `yaml.Unmarshal(b, c)` on an existing `Configuration`: keys present in
the document overwrite the corresponding fields, keys absent leave the
existing values untouched (gopkg.in/yaml.v2 only sets fields it finds). -/
def applyFile (c : Configuration) (f : ConfigFile) : Configuration :=
  { debug := f.debug.getD c.debug
    system := match f.system with
              | none => c.system
              | some sf => some (applySystem c.system sf)
    panel := match f.panel with
             | none => c.panel
             | some pf => some (applyPanel c.panel pf)
    license := match f.license with
               | none => c.license
               | some lf => some (applyLicense c.license lf) }

/-- `ReadConfiguration` after a successful read and parse: it allocates a
fresh zero `Configuration{}` and unmarshals the document into it.  It never
applies defaults.  (Read and parse failures are handled by the caller and
modelled in `mainBoot`.) -/
def ReadConfiguration (f : ConfigFile) : Configuration :=
  applyFile emptyConfiguration f

/-- Outcomes fixed by the environment for the three fallible steps of
`WriteToDisk`: `os.OpenFile`, `yaml.Marshal`, `f.Write`. -/
structure DiskEnv where
  openErr : Option String
  marshalErr : Option String
  writeErr : Option String
deriving DecidableEq, Repr

/-- The `os.OpenFile("config.yml", os.O_WRONLY, os.ModeExclusive)` call
made by `WriteToDisk`: the path is the hardcoded literal `config.yml`,
independent of the path the configuration was read from. -/
def configYmlOpen : BootAction :=
  .fsOpen "config.yml" oWRONLY modeExclusive

/-- `WriteToDisk`: opens the hardcoded path `config.yml`, marshals the full
configuration, writes it.  Each failing step returns its error; only a
fully successful run replaces the on-disk content. -/
def WriteToDisk (c : Configuration) (denv : DiskEnv)
    (disk : Option Configuration) :
    Option String × Option Configuration × List BootAction :=
  match denv.openErr with
  | some e => (some e, disk, [configYmlOpen])
  | none =>
    match denv.marshalErr with
    | some e => (some e, disk, [configYmlOpen])
    | none =>
      match denv.writeErr with
      | some e => (some e, disk, [configYmlOpen])
      | none => (none, some c, [configYmlOpen, .fsWrite "config.yml" c])

/-! ## SystemIdentity: user lookup, account creation, SetSystemUser -/

/-- `user.User` as returned by `os/user.Lookup`: the `Uid` and `Gid` fields
are strings in Go. -/
structure OsUser where
  username : String
  uid : String
  gid : String
deriving DecidableEq, Repr

/-- Outcome of one `user.Lookup` call, fixed by the environment:
found, failed with `user.UnknownUserError`, or failed with any other
error. -/
inductive LookupResult where
  | found (u : OsUser)
  | unknownUser
  | otherError (e : String)
deriving DecidableEq, Repr

/-- Environment for one `EnsureUser` run: the first lookup, the outcome of
the `useradd` exec, the second lookup, and the disk outcomes for the
`WriteToDisk` that `SetSystemUser` performs. -/
structure UserEnv where
  lookup1 : LookupResult
  useraddErr : Option String
  lookup2 : LookupResult
  denv : DiskEnv
deriving DecidableEq, Repr

/-- `strconv.Atoi` with its error discarded, as in `uid, _ :=
strconv.Atoi(u.Uid)`: an optional sign followed by at least one decimal
digit parses to its value; anything else leaves the zero value `0`. -/
def parseDigits : List Char → Option Nat
  | [] => none
  | cs => cs.foldl
      (fun acc ch => match acc with
        | none => none
        | some n => if ch.isDigit then some (n * 10 + (ch.toNat - 48)) else none)
      (some 0)

/-- Go `strconv.Atoi` result with the error ignored (`0` on failure). -/
def goAtoi (s : String) : Int :=
  match s.data with
  | '+' :: rest => match parseDigits rest with | some n => (n : Int) | none => 0
  | '-' :: rest => match parseDigits rest with | some n => -(n : Int) | none => 0
  | cs => match parseDigits cs with | some n => (n : Int) | none => 0

/-- The `useradd` command `EnsureUser` builds with `fmt.Sprintf` and splits
on single spaces before handing it to `exec.Command`. -/
def useraddCommand (username : String) : List String :=
  ("useradd --system --no-create-home --shell /bin/false " ++ username).splitOn " "

/-- Result of `SetSystemUser`: the returned error, the updated in-memory
configuration, the resulting disk content, the actions performed, and
whether a nil-pointer dereference occurred (`c.System` nil). -/
structure SSUOut where
  err : Option String
  conf : Configuration
  disk : Option Configuration
  actions : List BootAction
  panicked : Bool
deriving DecidableEq, Repr

/-- `SetSystemUser`: converts `u.Uid`/`u.Gid` with `strconv.Atoi`
(errors discarded), stores username/uid/gid into `c.System`, then calls
`WriteToDisk` and returns its error.  Dereferences `c.System`, so a nil
`System` section panics. -/
def SetSystemUser (c : Configuration) (u : OsUser) (denv : DiskEnv)
    (disk : Option Configuration) : SSUOut :=
  match c.system with
  | none => { err := none, conf := c, disk := disk, actions := [], panicked := true }
  | some sys =>
    let sys2 : SystemConfiguration :=
      { sys with username := u.username, uid := goAtoi u.uid, gid := goAtoi u.gid }
    let c2 : Configuration := { c with system := some sys2 }
    match WriteToDisk c2 denv disk with
    | (werr, disk2, acts) =>
      { err := werr, conf := c2, disk := disk2, actions := acts, panicked := false }

/-- Result of `EnsureUser`: the returned `*user.User` and error (both are
returned together in Go: the found-user path returns the user alongside
`SetSystemUser`'s error), the updated configuration, the disk content, the
action trace, and whether a nil dereference occurred. -/
structure EnsureOut where
  user : Option OsUser
  err : Option String
  conf : Configuration
  disk : Option Configuration
  actions : List BootAction
  panicked : Bool
deriving DecidableEq, Repr

/-- `EnsureUser`: looks up `c.System.Username` (nil `System` panics).
If found, records and persists it via `SetSystemUser`.  If the lookup error
is not `user.UnknownUserError`, it is returned and nothing is created.
Only for the unknown-user case it runs `useradd`, re-looks-up, and records
and persists the created user; any second-lookup error is returned. -/
def EnsureUser (c : Configuration) (env : UserEnv)
    (disk : Option Configuration) : EnsureOut :=
  match c.system with
  | none =>
    { user := none, err := none, conf := c, disk := disk, actions := [],
      panicked := true }
  | some sys =>
    match env.lookup1 with
    | .found u =>
      let s := SetSystemUser c u env.denv disk
      { user := some u, err := s.err, conf := s.conf, disk := s.disk,
        actions := s.actions, panicked := s.panicked }
    | .otherError e =>
      { user := none, err := some e, conf := c, disk := disk, actions := [],
        panicked := false }
    | .unknownUser =>
      let argv := useraddCommand sys.username
      match env.useraddErr with
      | some e =>
        { user := none, err := some e, conf := c, disk := disk,
          actions := [.exec argv], panicked := false }
      | none =>
        match env.lookup2 with
        | .found u =>
          let s := SetSystemUser c u env.denv disk
          { user := some u, err := s.err, conf := s.conf, disk := s.disk,
            actions := .exec argv :: s.actions, panicked := s.panicked }
        | .unknownUser =>
          { user := none, err := some ("user: unknown user " ++ sys.username),
            conf := c, disk := disk, actions := [.exec argv], panicked := false }
        | .otherError e =>
          { user := none, err := some e, conf := c, disk := disk,
            actions := [.exec argv], panicked := false }

/-! ## LicenseClient: CheckLicense, requestLicense and wrappers -/

/-- Whether the process continues or was terminated by `log.Fatal`
(which logs and then calls `os.Exit(1)`). -/
inductive Outcome where
  | normal
  | fatal (msg : String)
deriving DecidableEq, Repr

/-- Result of a license-client call: process outcome, the (possibly
updated) in-memory configuration, and the HTTP actions performed. -/
structure ROut where
  outcome : Outcome
  conf : Configuration
  actions : List BootAction
deriving DecidableEq, Repr

/-- Outcome of the verify exchange in `CheckLicense`, fixed by the
environment: `http.NewRequest` error, `client.Do` error, JSON decode
error, or a decoded `LicenseVerify{Valid, LicenseType}` body. -/
inductive VerifyOutcome where
  | newReqErr (e : String)
  | doErr (e : String)
  | decodeErr (e : String)
  | ok (valid : Bool) (licenseType : Int)
deriving DecidableEq, Repr

/-- Environment for one `CheckLicense` run.  `checkIP` is what
`GetOutboundIP` returns inside `CheckLicense`, and `reqIP` is what it
returns inside `requestLicense`, which re-derives the IP itself with a
second `GetOutboundIP` call (`""` means no route: `net.Dial` failed).
`reqMarshalErr` and `reqDoErr` fix the outcomes of `json.Marshal` and
`client.Do` inside `requestLicense`. -/
structure LicenseEnv where
  checkIP : String
  verify : VerifyOutcome
  reqIP : String
  reqMarshalErr : Option String
  reqDoErr : Option String
deriving DecidableEq, Repr

/-- The verify URL `https://licenses.cosmicpanel.net/verify?ip=<ip>` built
with `fmt.Sprintf`. -/
def verifyURL (ip : String) : String :=
  "https://licenses.cosmicpanel.net/verify?ip=" ++ ip

/-- The request URL used by `requestLicense`. -/
def requestURL : String :=
  "https://licenses.cosmicpanel.net/request"

/-- `requestLicense`: re-derives the outbound IP; if it is empty the body
of the function is skipped entirely (no request, no error, no state
change).  Otherwise marshals `LicenseRequest{type, ip}` (a `json.Marshal`
error hits `log.Fatal`), POSTs it, and on a `client.Do` error hits
`log.Fatal`.  The response is ignored; the configuration is never
modified.  (The error of `http.NewRequest` is shadowed before being
checked; the URL is a valid constant, so that call cannot fail.) -/
def requestLicense (c : Configuration) (licenseType : Int)
    (env : LicenseEnv) : ROut :=
  if env.reqIP = "" then
    { outcome := .normal, conf := c, actions := [] }
  else
    match env.reqMarshalErr with
    | some e => { outcome := .fatal ("RequestLicense: " ++ e), conf := c, actions := [] }
    | none =>
      match env.reqDoErr with
      | some e =>
        { outcome := .fatal ("RequestLicense: " ++ e), conf := c,
          actions := [.httpPost requestURL licenseType env.reqIP] }
      | none =>
        { outcome := .normal, conf := c,
          actions := [.httpPost requestURL licenseType env.reqIP] }

/-- `RequestDNSONLYLicense`: requests a dns only license (type 3). -/
def RequestDNSONLYLicense (c : Configuration) (env : LicenseEnv) : ROut :=
  requestLicense c 3 env

/-- `RequestTrialLicense`: requests a 15 day trial license (type 4). -/
def RequestTrialLicense (c : Configuration) (env : LicenseEnv) : ROut :=
  requestLicense c 4 env

/-- `RequestNewLicense`: dispatches on the `dnsonly` flag. -/
def RequestNewLicense (c : Configuration) (dnsonly : Bool)
    (env : LicenseEnv) : ROut :=
  if dnsonly then RequestDNSONLYLicense c env else RequestTrialLicense c env

/-- `CheckLicense`: if `GetOutboundIP` returns `""` the whole body is
skipped.  Otherwise it GETs the verify URL.  A `http.NewRequest` or
`client.Do` error hits `log.Fatal`, which terminates the process — the
`c.RequestNewLicense(dnsonly)` and `return false` lines that follow those
`log.Fatal` calls in the source are dead code (and `return false` in a
function with no result type does not even compile).  A JSON decode error
is only logged (`log.Println`), so that path does reach
`RequestNewLicense`.  On success, `SetLicenseSettings` updates the
in-memory license section; no `WriteToDisk` call occurs anywhere in
`CheckLicense`. -/
def CheckLicense (c : Configuration) (dnsonly : Bool) (env : LicenseEnv) : ROut :=
  if env.checkIP = "" then
    { outcome := .normal, conf := c, actions := [] }
  else
    match env.verify with
    | .newReqErr e =>
      { outcome := .fatal ("NewRequest: " ++ e), conf := c, actions := [] }
    | .doErr e =>
      { outcome := .fatal ("Do : " ++ e), conf := c,
        actions := [.httpGet (verifyURL env.checkIP)] }
    | .decodeErr _ =>
      let r := RequestNewLicense c dnsonly env
      { outcome := r.outcome, conf := r.conf,
        actions := .httpGet (verifyURL env.checkIP) :: r.actions }
    | .ok v t =>
      { outcome := .normal, conf := SetLicenseSettings c v t,
        actions := [.httpGet (verifyURL env.checkIP)] }

/-! ## The entrypoint (`cosmicpanel.go` main) -/

/-- How a modelled boot run of `main` ends. -/
inductive BootOutcome where
  | readPanic (e : String)
  | nilDeref
  | userPanic (e : String)
  | fatal (msg : String)
  | done (c : Configuration)
deriving DecidableEq, Repr

/-- The `main` sequence of `cosmicpanel.go`: read the configuration
(`panic(err)` on failure), apply the debug flag, call `EnsureUser`
(`zap.S().Panicw` when it returns an error; a nil `System` section is a
nil-pointer dereference), then `CheckLicense` with the dnsonly flag.
`SetDefaults` is never called.  Logger configuration is an external
collaborator and is omitted. -/
def mainBoot (fileR : Except String ConfigFile) (debugFlag dnsonly : Bool)
    (uenv : UserEnv) (lenv : LicenseEnv) (disk : Option Configuration) :
    BootOutcome :=
  match fileR with
  | .error e => .readPanic e
  | .ok file =>
    let c0 := ReadConfiguration file
    let c1 := if debugFlag then { c0 with debug := true } else c0
    let eo := EnsureUser c1 uenv disk
    if eo.panicked then .nilDeref
    else
      match eo.err with
      | some e => .userPanic e
      | none =>
        let r := CheckLicense eo.conf dnsonly lenv
        match r.outcome with
        | .fatal m => .fatal m
        | .normal => .done r.conf

/-! ## Concrete fixtures for witnesses and counterexamples -/

/-- A sample configuration: defaults applied, license absent. -/
def cSample : Configuration := SetDefaults emptyConfiguration

/-- A disk environment in which open, marshal and write all succeed. -/
def denvOk : DiskEnv := { openErr := none, marshalErr := none, writeErr := none }

/-- A disk environment in which `os.OpenFile` fails (for example because
the file does not exist: the open uses no `O_CREATE` flag). -/
def denvOpenBusy : DiskEnv :=
  { openErr := some "EBUSY", marshalErr := none, writeErr := none }

/-- A disk environment in which the open succeeds but `yaml.Marshal`
fails. -/
def denvMarshalErr : DiskEnv :=
  { openErr := none, marshalErr := some "marshal failure", writeErr := none }

/-- A disk environment in which open and marshal succeed but `f.Write`
fails. -/
def denvWriteErr : DiskEnv :=
  { openErr := none, marshalErr := none, writeErr := some "EIO" }

/-- License environment: outbound IP found, verify succeeds with
`{"valid": true, "licenseType": 1}`. -/
def envVerifyOk : LicenseEnv :=
  { checkIP := "203.0.113.7", verify := .ok true 1, reqIP := "203.0.113.7",
    reqMarshalErr := none, reqDoErr := none }

/-- License environment: outbound IP found, the verify GET fails in
`client.Do` (license server unreachable). -/
def envVerifyDoErr : LicenseEnv :=
  { checkIP := "203.0.113.7", verify := .doErr "connection refused",
    reqIP := "203.0.113.7", reqMarshalErr := none, reqDoErr := none }

/-- License environment: no outbound route at all. -/
def envNoRoute : LicenseEnv :=
  { checkIP := "", verify := .decodeErr "unexpected EOF", reqIP := "",
    reqMarshalErr := none, reqDoErr := none }

/-- License environment: the verify attempt sees an outbound IP but by the
time `requestLicense` re-derives the IP the route is gone. -/
def envRouteLost : LicenseEnv :=
  { checkIP := "203.0.113.7", verify := .decodeErr "unexpected EOF",
    reqIP := "", reqMarshalErr := none, reqDoErr := none }

/-- The empty configuration file: no keys at all. -/
def fileEmpty : ConfigFile :=
  { debug := none, system := none, panel := none, license := none }

/-- A configuration file whose only key is `panel.port: 2000`. -/
def filePanel2000 : ConfigFile :=
  { debug := none, system := none, panel := some { port := some 2000 },
    license := none }

/-- A sample OS user as `user.Lookup` would return it. -/
def uSample : OsUser := { username := "cosmicpanel", uid := "998", gid := "997" }

/-- User environment: first lookup finds `uSample`, disk writes succeed. -/
def uenvFound : UserEnv :=
  { lookup1 := .found uSample, useraddErr := none, lookup2 := .unknownUser,
    denv := denvOk }

/-- User environment: first lookup fails with an error that is not
`user.UnknownUserError`. -/
def uenvOtherErr : UserEnv :=
  { lookup1 := .otherError "permission denied", useraddErr := none,
    lookup2 := .unknownUser, denv := denvOk }

/-! ## Theorems -/

/-- C3: applying `SetDefaults` to an empty `Configuration` and then loading
a file merges field-by-field: fields absent from the file keep their
default values (the default panel port 1334 survives a file with no
`panel` section, and even a `panel` section with no `port` key; the
default username and data directory survive a `system` section that omits
them), and fields present in the file take the file's values
(`panel.port: 2000` overrides the default). -/
theorem setDefaults_then_load_merges (f : ConfigFile) :
    (f.panel = none →
      (applyFile (SetDefaults emptyConfiguration) f).panel = some { port := 1334 }) ∧
    (f.panel = some { port := none } →
      (applyFile (SetDefaults emptyConfiguration) f).panel = some { port := 1334 }) ∧
    (∀ p : Int, f.panel = some { port := some p } →
      (applyFile (SetDefaults emptyConfiguration) f).panel = some { port := p }) ∧
    (f.system = none →
      (applyFile (SetDefaults emptyConfiguration) f).system =
        some { data := "/usr/local/cosmicpanel", username := "cosmicpanel",
               uid := 0, gid := 0 }) ∧
    (∀ sf : SystemFile, f.system = some sf → sf.username = none →
      ∃ s : SystemConfiguration,
        (applyFile (SetDefaults emptyConfiguration) f).system = some s ∧
        s.username = "cosmicpanel") ∧
    (∀ sf : SystemFile, ∀ un : String, f.system = some sf → sf.username = some un →
      ∃ s : SystemConfiguration,
        (applyFile (SetDefaults emptyConfiguration) f).system = some s ∧
        s.username = un) ∧
    (∀ sf : SystemFile, f.system = some sf → sf.data = none →
      ∃ s : SystemConfiguration,
        (applyFile (SetDefaults emptyConfiguration) f).system = some s ∧
        s.data = "/usr/local/cosmicpanel") ∧
    (f.debug = none → (applyFile (SetDefaults emptyConfiguration) f).debug = false) ∧
    (∀ b : Bool, f.debug = some b →
      (applyFile (SetDefaults emptyConfiguration) f).debug = b) := by
  refine ⟨?_, ?_, ?_, ?_, ?_, ?_, ?_, ?_, ?_⟩
  · intro h
    simp [applyFile, SetDefaults, emptyConfiguration, h]
  · intro h
    simp [applyFile, applyPanel, SetDefaults, emptyConfiguration, h]
  · intro p h
    simp [applyFile, applyPanel, SetDefaults, emptyConfiguration, h]
  · intro h
    simp [applyFile, SetDefaults, emptyConfiguration, h]
  · intro sf h hu
    refine ⟨applySystem (SetDefaults emptyConfiguration).system sf, ?_, ?_⟩
    · simp [applyFile, h]
    · simp [applySystem, SetDefaults, emptyConfiguration, hu]
  · intro sf un h hu
    refine ⟨applySystem (SetDefaults emptyConfiguration).system sf, ?_, ?_⟩
    · simp [applyFile, h]
    · simp [applySystem, SetDefaults, emptyConfiguration, hu]
  · intro sf h hd
    refine ⟨applySystem (SetDefaults emptyConfiguration).system sf, ?_, ?_⟩
    · simp [applyFile, h]
    · simp [applySystem, SetDefaults, emptyConfiguration, hd]
  · intro h
    simp [applyFile, SetDefaults, emptyConfiguration, h]
  · intro b h
    simp [applyFile, SetDefaults, emptyConfiguration, h]

/-- Witness for C3: the default port 1334 survives loading the empty file,
and a file with `panel.port: 2000` overrides it to 2000. -/
theorem setDefaults_then_load_merges_witness :
    (applyFile (SetDefaults emptyConfiguration) fileEmpty).panel =
      some { port := 1334 } ∧
    (applyFile (SetDefaults emptyConfiguration) filePanel2000).panel =
      some { port := 2000 } :=
  ⟨(setDefaults_then_load_merges fileEmpty).1 rfl,
   (setDefaults_then_load_merges filePanel2000).2.2.1 2000 rfl⟩

/-- C8: when `GetOutboundIP` returns the empty string inside
`CheckLicense`, the whole check is silently skipped: the run ends
normally (no `log.Fatal`), no HTTP action is performed, and the
configuration — in particular its license section — is returned
unchanged. -/
theorem checkLicense_skipped_without_ip (c : Configuration) (dnsonly : Bool)
    (env : LicenseEnv) (h : env.checkIP = "") :
    CheckLicense c dnsonly env =
      { outcome := .normal, conf := c, actions := [] } := by
  simp [CheckLicense, h]

/-- Witness for C8 at a concrete input: no route, license config
untouched, no actions. -/
theorem checkLicense_skipped_without_ip_witness :
    CheckLicense cSample false envNoRoute =
      { outcome := .normal, conf := cSample, actions := [] } :=
  checkLicense_skipped_without_ip cSample false envNoRoute rfl

/-- C10: `requestLicense` re-derives the outbound IP with its own
`GetOutboundIP` call; whenever that second call returns the empty string,
`RequestNewLicense` (for either flag value, hence also
`RequestDNSONLYLicense` and `RequestTrialLicense`) performs no HTTP POST,
raises no error (normal outcome), and leaves the configuration
unchanged — the fallback request silently does nothing.  The verify-time
IP `env.checkIP` is unconstrained here, so the statement covers runs where
the verify attempt did see a route. -/
theorem requestNewLicense_silent_without_ip (c : Configuration)
    (dnsonly : Bool) (env : LicenseEnv) (h : env.reqIP = "") :
    RequestNewLicense c dnsonly env =
      { outcome := .normal, conf := c, actions := [] } := by
  cases dnsonly <;>
    simp [RequestNewLicense, RequestDNSONLYLicense, RequestTrialLicense,
          requestLicense, h]

/-- Witness for C10: the verify attempt had an IP (`checkIP` nonempty) but
the re-derivation inside `requestLicense` returns `""`; the fallback is a
silent no-op. -/
theorem requestNewLicense_silent_without_ip_witness :
    RequestNewLicense cSample true envRouteLost =
      { outcome := .normal, conf := cSample, actions := [] } :=
  requestNewLicense_silent_without_ip cSample true envRouteLost rfl

/-- C2 (amended): when the license server responds successfully with
`{"valid": v, "licenseType": t}`, `CheckLicense` sets the in-memory
license section to exactly those values via `SetLicenseSettings` and
returns normally — but it does NOT persist the configuration: its whole
action trace is the single verify GET, with no file open or write. -/
theorem checkLicense_success_sets_license_in_memory (c : Configuration)
    (dnsonly : Bool) (env : LicenseEnv) (v : Bool) (t : Int)
    (hip : env.checkIP ≠ "") (hv : env.verify = .ok v t) :
    CheckLicense c dnsonly env =
      { outcome := .normal, conf := SetLicenseSettings c v t,
        actions := [.httpGet (verifyURL env.checkIP)] } := by
  simp [CheckLicense, hip, hv]

/-- Witness for C2's amended theorem: server returns
`{"valid": true, "licenseType": 1}` and the license section becomes
`{ValidLicense := true, LicenseType := 1}` in memory. -/
theorem checkLicense_success_sets_license_in_memory_witness :
    CheckLicense cSample false envVerifyOk =
      { outcome := .normal, conf := SetLicenseSettings cSample true 1,
        actions := [.httpGet (verifyURL "203.0.113.7")] } :=
  checkLicense_success_sets_license_in_memory cSample false envVerifyOk true 1
    (by decide) rfl

/-- C2 counterexample: at a concrete successful verify run the license
section is updated in memory, yet the action trace contains no
`fsWrite` (indeed no file action at all) — `CheckLicense` never calls
`WriteToDisk`, so the updated configuration is not persisted to disk
before the call returns, contrary to the claim. -/
theorem checkLicense_success_not_persisted :
    (CheckLicense cSample false envVerifyOk).conf.license =
      some { validLicense := true, licenseType := 1 } ∧
    (CheckLicense cSample false envVerifyOk).actions =
      [.httpGet (verifyURL "203.0.113.7")] ∧
    BootAction.fsWrite "config.yml" (CheckLicense cSample false envVerifyOk).conf ∉
      (CheckLicense cSample false envVerifyOk).actions := by
  decide

/-- C1 (code evaluated at the failing input): when the verify GET's
`client.Do` returns a network error, `CheckLicense` hits
`log.Fatal("Do : ", err)`, which terminates the process with exit status
1; the `c.RequestNewLicense(dnsonly)` call written after it is dead code,
so the trace contains the GET and no POST — the client neither falls back
nor returns normally. -/
theorem checkLicense_network_error_is_fatal :
    (CheckLicense cSample false envVerifyDoErr).outcome =
      .fatal "Do : connection refused" ∧
    (CheckLicense cSample false envVerifyDoErr).actions =
      [.httpGet (verifyURL "203.0.113.7")] := by
  decide

/-- C7 (code evaluated at the failing input): with `preferDNSOnly = true`
and an unreachable license server, the process dies in `log.Fatal` before
`RequestNewLicense` runs: no POST (of type 3 or any other) is ever issued,
though the license fields are indeed left unchanged. -/
theorem checkLicense_unreachable_sends_no_post :
    (CheckLicense cSample true envVerifyDoErr).outcome =
      .fatal "Do : connection refused" ∧
    (CheckLicense cSample true envVerifyDoErr).actions =
      [.httpGet (verifyURL "203.0.113.7")] ∧
    (CheckLicense cSample true envVerifyDoErr).conf = cSample := by
  decide

/-- C4 counterexample: `WriteToDisk` opens the string literal
`"config.yml"` — a relative path baked into the function — not the path
the configuration was loaded from.  For a daemon started with
`--config /etc/cosmicpanel/config.yml` the write goes to a different
file: the opened path is `"config.yml"`, which differs from
`"/etc/cosmicpanel/config.yml"`, refuting "serializes back to that same
file path p". -/
theorem writeToDisk_targets_hardcoded_path :
    (WriteToDisk cSample denvOk none).2.2 =
      [BootAction.fsOpen "config.yml" oWRONLY modeExclusive,
       BootAction.fsWrite "config.yml" cSample] ∧
    "config.yml" ≠ "/etc/cosmicpanel/config.yml" := by
  decide

/-- C4 (amended): `WriteToDisk` always opens the hardcoded path
`config.yml` — not the path the configuration was loaded from — write-only
(`os.O_WRONLY`) with `os.ModeExclusive` as the mode argument; a failure of
any of its three steps (`os.OpenFile`, `yaml.Marshal`, `f.Write`) is
returned as that step's error with the on-disk content unchanged, a fully
successful run replaces the on-disk content with the serialized full
configuration, and nothing but a fully successful run ever replaces it. -/
theorem writeToDisk_fixed_path_and_errors (c : Configuration)
    (denv : DiskEnv) (disk : Option Configuration) :
    (WriteToDisk c denv disk).2.2.head? = some configYmlOpen ∧
    (∀ e : String, denv.openErr = some e →
      WriteToDisk c denv disk = (some e, disk, [configYmlOpen])) ∧
    (∀ e : String, denv.openErr = none → denv.marshalErr = some e →
      WriteToDisk c denv disk = (some e, disk, [configYmlOpen])) ∧
    (∀ e : String, denv.openErr = none → denv.marshalErr = none →
        denv.writeErr = some e →
      WriteToDisk c denv disk = (some e, disk, [configYmlOpen])) ∧
    (denv.openErr = none → denv.marshalErr = none → denv.writeErr = none →
      WriteToDisk c denv disk =
        (none, some c, [configYmlOpen, .fsWrite "config.yml" c])) ∧
    ((WriteToDisk c denv disk).2.1 ≠ disk →
      denv.openErr = none ∧ denv.marshalErr = none ∧ denv.writeErr = none ∧
      (WriteToDisk c denv disk).2.1 = some c) := by
  cases h1 : denv.openErr with
  | some e => simp [WriteToDisk, h1]
  | none =>
    cases h2 : denv.marshalErr with
    | some e => simp [WriteToDisk, h1, h2]
    | none =>
      cases h3 : denv.writeErr with
      | some e => simp [WriteToDisk, h1, h2, h3]
      | none => simp [WriteToDisk, h1, h2, h3]

/-- Witness for C4's amended theorem, one conjunct per step: an open
failure, a marshal failure and a write failure each come back as that
step's error with the disk keeping its previous content; on full success
the disk holds the serialized configuration. -/
theorem writeToDisk_fixed_path_and_errors_witness :
    WriteToDisk cSample denvOpenBusy (some emptyConfiguration) =
      (some "EBUSY", some emptyConfiguration, [configYmlOpen]) ∧
    WriteToDisk cSample denvMarshalErr (some emptyConfiguration) =
      (some "marshal failure", some emptyConfiguration, [configYmlOpen]) ∧
    WriteToDisk cSample denvWriteErr (some emptyConfiguration) =
      (some "EIO", some emptyConfiguration, [configYmlOpen]) ∧
    WriteToDisk cSample denvOk none =
      (none, some cSample, [configYmlOpen, .fsWrite "config.yml" cSample]) :=
  ⟨(writeToDisk_fixed_path_and_errors cSample denvOpenBusy
      (some emptyConfiguration)).2.1 "EBUSY" rfl,
   (writeToDisk_fixed_path_and_errors cSample denvMarshalErr
      (some emptyConfiguration)).2.2.1 "marshal failure" rfl rfl,
   (writeToDisk_fixed_path_and_errors cSample denvWriteErr
      (some emptyConfiguration)).2.2.2.1 "EIO" rfl rfl rfl,
   (writeToDisk_fixed_path_and_errors cSample denvOk none).2.2.2.2.1
     rfl rfl rfl⟩

/-- C6: when the initial `user.Lookup` fails with any error other than
`user.UnknownUserError`, `EnsureUser` returns exactly that error with a nil
user and performs no action at all — in particular no `useradd` exec — and
neither the configuration nor the disk is touched.  (Creation is attempted
only on the unknown-user branch.) -/
theorem ensureUser_propagates_other_lookup_errors (c : Configuration)
    (sys : SystemConfiguration) (env : UserEnv) (disk : Option Configuration)
    (e : String) (hs : c.system = some sys)
    (hl : env.lookup1 = .otherError e) :
    EnsureUser c env disk =
      { user := none, err := some e, conf := c, disk := disk, actions := [],
        panicked := false } := by
  simp [EnsureUser, hs, hl]

/-- Witness for C6: a permission-denied lookup error is returned verbatim,
with no exec in the trace. -/
theorem ensureUser_propagates_other_lookup_errors_witness :
    EnsureUser cSample uenvOtherErr none =
      { user := none, err := some "permission denied", conf := cSample,
        disk := none, actions := [], panicked := false } :=
  ensureUser_propagates_other_lookup_errors cSample
    { data := "/usr/local/cosmicpanel", username := "cosmicpanel",
      uid := 0, gid := 0 }
    uenvOtherErr none "permission denied" rfl rfl

/-- C5: whenever `EnsureUser` returns a user together with a nil error,
the disk already holds the serialized updated configuration — the one
whose `System` section carries the returned user's username and its
uid/gid as converted by `strconv.Atoi` — because `SetSystemUser` (which
calls `WriteToDisk` and whose error is the one returned) runs before
`EnsureUser` yields the user to the caller. -/
theorem ensureUser_persists_uid_gid (c : Configuration) (env : UserEnv)
    (disk : Option Configuration) (u : OsUser)
    (hu : (EnsureUser c env disk).user = some u)
    (he : (EnsureUser c env disk).err = none) :
    (EnsureUser c env disk).panicked = false ∧
    (EnsureUser c env disk).disk = some (EnsureUser c env disk).conf ∧
    ∃ s : SystemConfiguration,
      (EnsureUser c env disk).conf.system = some s ∧
      s.username = u.username ∧ s.uid = goAtoi u.uid ∧ s.gid = goAtoi u.gid := by
  cases hc : c.system with
  | none => simp [EnsureUser, hc] at hu
  | some sys =>
    cases hl : env.lookup1 with
    | otherError e => simp [EnsureUser, hc, hl] at he
    | found u0 =>
      simp only [EnsureUser, hc, hl] at hu he ⊢
      simp only [SetSystemUser, hc] at hu he ⊢
      cases h1 : env.denv.openErr with
      | some e => simp [WriteToDisk, h1] at he
      | none =>
        cases h2 : env.denv.marshalErr with
        | some e => simp [WriteToDisk, h1, h2] at he
        | none =>
          cases h3 : env.denv.writeErr with
          | some e => simp [WriteToDisk, h1, h2, h3] at he
          | none =>
            simp only [Option.some.injEq] at hu
            subst hu
            simp [WriteToDisk, h1, h2, h3]
    | unknownUser =>
      cases hua : env.useraddErr with
      | some e => simp [EnsureUser, hc, hl, hua] at hu
      | none =>
        cases hl2 : env.lookup2 with
        | otherError e => simp [EnsureUser, hc, hl, hua, hl2] at hu
        | unknownUser => simp [EnsureUser, hc, hl, hua, hl2] at hu
        | found u0 =>
          simp only [EnsureUser, hc, hl, hua, hl2] at hu he ⊢
          simp only [SetSystemUser, hc] at hu he ⊢
          cases h1 : env.denv.openErr with
          | some e => simp [WriteToDisk, h1] at he
          | none =>
            cases h2 : env.denv.marshalErr with
            | some e => simp [WriteToDisk, h1, h2] at he
            | none =>
              cases h3 : env.denv.writeErr with
              | some e => simp [WriteToDisk, h1, h2, h3] at he
              | none =>
                simp only [Option.some.injEq] at hu
                subst hu
                simp [WriteToDisk, h1, h2, h3]

/-- Witness for C5: the found-user path at a concrete environment.  The
returned user is `uSample` (uid "998", gid "997"), the error is nil, and
the theorem yields that the disk holds the updated configuration whose
`System` section has uid 998 and gid 997. -/
theorem ensureUser_persists_uid_gid_witness :
    (EnsureUser cSample uenvFound none).user = some uSample ∧
    (EnsureUser cSample uenvFound none).err = none ∧
    ((EnsureUser cSample uenvFound none).panicked = false ∧
     (EnsureUser cSample uenvFound none).disk =
       some (EnsureUser cSample uenvFound none).conf ∧
     ∃ s : SystemConfiguration,
       (EnsureUser cSample uenvFound none).conf.system = some s ∧
       s.username = uSample.username ∧ s.uid = goAtoi uSample.uid ∧
       s.gid = goAtoi uSample.gid) :=
  ⟨rfl, rfl, ensureUser_persists_uid_gid cSample uenvFound none uSample rfl rfl⟩

/-- C9: `ReadConfiguration` never applies defaults: a file that parses but
has no `system` key yields a configuration whose `System` pointer is nil
(and likewise for `panel`), and since `main` never calls `SetDefaults`
before `EnsureUser`, the boot sequence reaches the nil-pointer dereference
of `c.System.Username` inside `EnsureUser` for any flag values and any
environment. -/
theorem readConfiguration_missing_system_nil_deref (f : ConfigFile)
    (debugFlag dnsonly : Bool) (uenv : UserEnv) (lenv : LicenseEnv)
    (disk : Option Configuration) (h : f.system = none) :
    (ReadConfiguration f).system = none ∧
    (f.panel = none → (ReadConfiguration f).panel = none) ∧
    (EnsureUser (ReadConfiguration f) uenv disk).panicked = true ∧
    mainBoot (.ok f) debugFlag dnsonly uenv lenv disk = .nilDeref := by
  have hs : (ReadConfiguration f).system = none := by
    simp [ReadConfiguration, applyFile, emptyConfiguration, h]
  refine ⟨hs, ?_, ?_, ?_⟩
  · intro hp
    simp [ReadConfiguration, applyFile, emptyConfiguration, hp]
  · simp [EnsureUser, hs]
  · cases hd : debugFlag <;>
      simp [mainBoot, EnsureUser, hs]

/-- Witness for C9: booting on the empty configuration file (no `system`
section) dereferences the nil `System` pointer. -/
theorem readConfiguration_missing_system_nil_deref_witness :
    (ReadConfiguration fileEmpty).system = none ∧
    (ReadConfiguration fileEmpty).panel = none ∧
    (EnsureUser (ReadConfiguration fileEmpty) uenvFound none).panicked = true ∧
    mainBoot (.ok fileEmpty) false false uenvFound envNoRoute none =
      .nilDeref := by
  obtain ⟨h1, h2, h3, h4⟩ :=
    readConfiguration_missing_system_nil_deref fileEmpty false false uenvFound
      envNoRoute none rfl
  exact ⟨h1, h2 rfl, h3, h4⟩
